import Mathlib

set_option maxHeartbeats 1000000

/-! Shallow embedding of the controller metadata module
`src/sardana/pool/poolmetacontroller.py` of the sardana repository:
raw configuration values, the data-type registries, the caseless mapping
used for configuration lookup, descriptor normalization
(`DataInfo.toDataInfo`), class cataloguing (`ControllerClass.__init__`)
and serialization (`DataInfo.toDict`, `ControllerClass.toDict`),
together with theorems settling the specified properties.

Helpers imported by the module from `sardana.sardanadefs`
(`DataType`, `DataFormat`, `DataAccess`, `ElementType`, `DTYPE_MAP`,
`DACCESS_MAP`, `to_dtype_dformat`, `to_daccess`, `TYPE_ELEMENTS`) and from
taurus (`CaselessDict`) are not under `src/`; they are modelled from the
specification, each marked `Modelled from the spec:` in its doc comment. -/

/-- Raw (Python) values appearing in declared configuration mappings and as
default values.  Floating-point literals do not occur in any property under
study and are omitted. -/
inductive PyValue where
  | str (s : String)
  | int (n : Int)
  | bool (b : Bool)
  | none
  | list (vs : List PyValue)

mutual

/-- Decidable equality of raw values (written by hand: the value type nests
under `List`). -/
def PyValue.decEq : (a b : PyValue) → Decidable (a = b)
  | .str s, .str t =>
    if h : s = t then isTrue (h ▸ rfl)
    else isFalse (fun hh => h (by cases hh; rfl))
  | .int m, .int n =>
    if h : m = n then isTrue (h ▸ rfl)
    else isFalse (fun hh => h (by cases hh; rfl))
  | .bool x, .bool y =>
    if h : x = y then isTrue (h ▸ rfl)
    else isFalse (fun hh => h (by cases hh; rfl))
  | .none, .none => isTrue rfl
  | .list xs, .list ys =>
    match PyValue.decEqList xs ys with
    | isTrue h => isTrue (h ▸ rfl)
    | isFalse h => isFalse (fun hh => h (by cases hh; rfl))
  | .str _, .int _ => isFalse (fun h => nomatch h)
  | .str _, .bool _ => isFalse (fun h => nomatch h)
  | .str _, .none => isFalse (fun h => nomatch h)
  | .str _, .list _ => isFalse (fun h => nomatch h)
  | .int _, .str _ => isFalse (fun h => nomatch h)
  | .int _, .bool _ => isFalse (fun h => nomatch h)
  | .int _, .none => isFalse (fun h => nomatch h)
  | .int _, .list _ => isFalse (fun h => nomatch h)
  | .bool _, .str _ => isFalse (fun h => nomatch h)
  | .bool _, .int _ => isFalse (fun h => nomatch h)
  | .bool _, .none => isFalse (fun h => nomatch h)
  | .bool _, .list _ => isFalse (fun h => nomatch h)
  | .none, .str _ => isFalse (fun h => nomatch h)
  | .none, .int _ => isFalse (fun h => nomatch h)
  | .none, .bool _ => isFalse (fun h => nomatch h)
  | .none, .list _ => isFalse (fun h => nomatch h)
  | .list _, .str _ => isFalse (fun h => nomatch h)
  | .list _, .int _ => isFalse (fun h => nomatch h)
  | .list _, .bool _ => isFalse (fun h => nomatch h)
  | .list _, .none => isFalse (fun h => nomatch h)

/-- Decidable equality of lists of raw values. -/
def PyValue.decEqList : (xs ys : List PyValue) → Decidable (xs = ys)
  | [], [] => isTrue rfl
  | [], _ :: _ => isFalse (fun h => nomatch h)
  | _ :: _, [] => isFalse (fun h => nomatch h)
  | x :: xs, y :: ys =>
    match PyValue.decEq x y with
    | isFalse h => isFalse (fun hh => h (by cases hh; rfl))
    | isTrue h =>
      match PyValue.decEqList xs ys with
      | isTrue h2 => isTrue (by rw [h, h2])
      | isFalse h2 => isFalse (fun hh => h2 (by cases hh; rfl))

end

instance : DecidableEq PyValue := PyValue.decEq

/-- Modelled from the spec: the declared data types of descriptors
(`sardana.sardanadefs.DataType`, not under `src/`).  The spec's examples use
numeric, string and boolean typed descriptors; the `Invalid` member of the
original enumeration is represented by normalization failure instead. -/
inductive DataType where
  | Integer
  | Double
  | String
  | Boolean
deriving DecidableEq

/-- Modelled from the spec: the data shape of a descriptor — scalar or
sequence (`sardana.sardanadefs.DataFormat`, not under `src/`). -/
inductive DataFormat where
  | Scalar
  | OneD
  | TwoD
deriving DecidableEq

/-- Modelled from the spec: the access mode of a descriptor — read-only or
read-write (`sardana.sardanadefs.DataAccess`, not under `src/`). -/
inductive DataAccess where
  | ReadOnly
  | ReadWrite
deriving DecidableEq

/-- Modelled from the spec: the element-type tags of the registry
(`sardana.sardanadefs.ElementType`, not under `src/`), restricted to the
tags appearing in this module's `TYPE_MAP`. -/
inductive ElementType where
  | Ctrl
  | Instrument
  | Motor
  | CTExpChannel
  | PseudoMotor
  | MotorGroup
  | MeasurementGroup
deriving DecidableEq

/-- Modelled from the spec: display-string rendering of a data type (the
enumeration's `whatis`, not under `src/`). -/
def DataType.whatis (t : DataType) :=
  match t with
  | .Integer => "Integer"
  | .Double => "Double"
  | .String => "String"
  | .Boolean => "Boolean"

/-- Modelled from the spec: display-string rendering of a data format. -/
def DataFormat.whatis (f : DataFormat) : String :=
  match f with
  | .Scalar => "Scalar"
  | .OneD => "OneD"
  | .TwoD => "TwoD"

/-- Modelled from the spec: display-string rendering of an access mode. -/
def DataAccess.whatis (a : DataAccess) : String :=
  match a with
  | .ReadOnly => "ReadOnly"
  | .ReadWrite => "ReadWrite"

/-- Modelled from the spec: display-string rendering of an element type. -/
def ElementType.whatis (t : ElementType) : String :=
  match t with
  | .Ctrl => "Ctrl"
  | .Instrument => "Instrument"
  | .Motor => "Motor"
  | .CTExpChannel => "CTExpChannel"
  | .PseudoMotor => "PseudoMotor"
  | .MotorGroup => "MotorGroup"
  | .MeasurementGroup => "MeasurementGroup"

/-- Modelled from the spec: the registry's reverse lookup from a (lowercased)
textual type name to the data type (`DTYPE_MAP`, not under `src/`). -/
def DTYPE_MAP : List (String × DataType) :=
  [("int", DataType.Integer), ("integer", DataType.Integer),
   ("long", DataType.Integer),
   ("double", DataType.Double), ("float", DataType.Double),
   ("str", DataType.String), ("string", DataType.String),
   ("bool", DataType.Boolean), ("boolean", DataType.Boolean)]

/-- Modelled from the spec: the registry's reverse lookup from a (lowercased)
textual format name to the data format. -/
def DFORMAT_MAP : List (String × DataFormat) :=
  [("scalar", DataFormat.Scalar), ("oned", DataFormat.OneD),
   ("twod", DataFormat.TwoD)]

/-- Modelled from the spec: the registry's reverse lookup from a (lowercased)
textual access-mode name to the access mode (`DACCESS_MAP`, not under
`src/`). -/
def DACCESS_MAP : List (String × DataAccess) :=
  [("read", DataAccess.ReadOnly), ("readonly", DataAccess.ReadOnly),
   ("readwrite", DataAccess.ReadWrite), ("read_write", DataAccess.ReadWrite)]

/-- Modelled from the spec: the error kinds of descriptor normalization
(section 7 of the spec).  The concrete Python exception classes raised by
the mapping lookup and by the sardanadefs helpers are not under `src/`;
failures are classified by the spec's taxonomy. -/
inductive NormError where
  | invalidConfiguration (key : String)
  | malformedDefaultLiteral (lit : String)
deriving DecidableEq

/-- Decidable equality for fallible results, so that concrete runs of the
embedded operations can be checked by evaluation. -/
def Except.decEq {e a : Type} [DecidableEq e] [DecidableEq a] :
    (x y : Except e a) → Decidable (x = y)
  | .ok u, .ok v =>
    if h : u = v then isTrue (h ▸ rfl)
    else isFalse (fun hh => h (by cases hh; rfl))
  | .error u, .error v =>
    if h : u = v then isTrue (h ▸ rfl)
    else isFalse (fun hh => h (by cases hh; rfl))
  | .ok _, .error _ => isFalse (fun h => nomatch h)
  | .error _, .ok _ => isFalse (fun h => nomatch h)

instance {e a : Type} [DecidableEq e] [DecidableEq a] :
    DecidableEq (Except e a) := Except.decEq

/-- Lowercasing used for caseless keys (Python `str.lower`), written
character-wise on the character list so that concrete instances evaluate
inside the kernel. -/
def strLower (s : String) : String := String.mk (s.data.map Char.toLower)

/-- Plain dictionary insertion on an association list: replace the binding of
an existing key, append a new one.  For lookups this is Python
`d[k] = v`; an overwritten binding moves to the end, which no lookup can
observe since keys stay unique. -/
def dSet {α : Type} (m : List (String × α)) (k : String) (v : α) :
    List (String × α) :=
  m.filter (fun kv => !(kv.1 == k)) ++ [(k, v)]

/-- Plain dictionary lookup on an association list (Python `d.get(k)`). -/
def dget {α : Type} (m : List (String × α)) (k : String) : Option α :=
  (m.find? (fun kv => kv.1 == k)).map (fun kv => kv.2)

/-- Insertion into a caseless dictionary.  taurus `CaselessDict` (an external
dependency of the module) stores every key lowercased; it is modelled as an
association list whose keys are kept lowercased and unique. -/
def cdSet {α : Type} (m : List (String × α)) (k : String) (v : α) :
    List (String × α) :=
  m.filter (fun kv => !(kv.1 == strLower k)) ++ [(strLower k, v)]

/-- Lookup in a caseless dictionary: the probe key is lowercased, matching
the lowercased stored keys. -/
def cdGet {α : Type} (m : List (String × α)) (k : String) : Option α :=
  (m.find? (fun kv => kv.1 == strLower k)).map (fun kv => kv.2)

/-- Building a `CaselessDict` from a raw mapping (`CaselessDict(info)` at the
top of `DataInfo.toDataInfo`): every item of the raw mapping is inserted in
order. -/
def CaselessDict.ofList (raw : List (String × PyValue)) :
    List (String × PyValue) :=
  raw.foldl (fun m kv => cdSet m kv.1 kv.2) []

/-- Modelled from the spec: `to_dtype_dformat` (sardanadefs, not under
`src/`) — the declared `type` value must resolve to a known data type,
otherwise normalization fails with an `InvalidConfiguration` error; a
sequence nesting of the textual type yields a one- or two-dimensional
shape, a bare textual type a scalar. -/
def to_dtype_dformat (v : PyValue) : Except NormError (DataType × DataFormat) :=
  match v with
  | .str s =>
    match List.lookup (strLower s) DTYPE_MAP with
    | some t => .ok (t, DataFormat.Scalar)
    | Option.none => .error (.invalidConfiguration "type")
  | .list [.str s] =>
    match List.lookup (strLower s) DTYPE_MAP with
    | some t => .ok (t, DataFormat.OneD)
    | Option.none => .error (.invalidConfiguration "type")
  | .list [.list [.str s]] =>
    match List.lookup (strLower s) DTYPE_MAP with
    | some t => .ok (t, DataFormat.TwoD)
    | Option.none => .error (.invalidConfiguration "type")
  | _ => .error (.invalidConfiguration "type")

/-- Modelled from the spec: `to_daccess` (sardanadefs, not under `src/`) —
the declared `r/w type` value must resolve to a known access mode or
normalization fails. -/
def to_daccess (v : PyValue) : Except NormError DataAccess :=
  match v with
  | .str s =>
    match List.lookup (strLower s) DACCESS_MAP with
    | some a => .ok a
    | Option.none => .error (.invalidConfiguration "r/w type")
  | _ => .error (.invalidConfiguration "r/w type")

/-- Modelled from the spec: evaluation of a textual default-value literal to
a typed value (the module calls Python `eval`; the spec restricts it to a
literal parser over numeric and boolean literals, failing loudly on
malformed literals).  Digit accumulation for the literal parser. -/
def digitsToNat : List Char → Option Nat → Option Nat
  | [], acc => acc
  | c :: cs, acc =>
    match acc with
    | Option.none => Option.none
    | some n =>
      if c.isDigit then digitsToNat cs (some (n * 10 + (c.toNat - 48)))
      else Option.none

/-- Integer-literal parsing (Python `int` literals, written on the character
list so that concrete instances evaluate inside the kernel). -/
def strToInt? (s : String) : Option Int :=
  match s.data with
  | [] => Option.none
  | '-' :: cs =>
    match cs with
    | [] => Option.none
    | _ :: _ => (digitsToNat cs (some 0)).map (fun n => -(n : Int))
  | cs => (digitsToNat cs (some 0)).map (fun n => (n : Int))

def pyEval (s : String) : Except NormError PyValue :=
  match strToInt? s with
  | some n => .ok (.int n)
  | Option.none =>
    if s = "True" then .ok (.bool true)
    else if s = "False" then .ok (.bool false)
    else .error (.malformedDefaultLiteral s)

/-- Normalized descriptor of one declared configuration item
(class `DataInfo` of the module). -/
structure DataInfo where
  name : String
  dtype : DataType
  dformat : DataFormat
  access : DataAccess
  description : PyValue
  default_value : Option PyValue
  fget : String
  fset : String
deriving DecidableEq

/-- Constructor logic of `DataInfo.__init__`: absent (or falsy, i.e. empty)
accessor names default to `get<Name>` / `set<Name>`. -/
def DataInfo.init (name : String) (dtype : DataType) (dformat : DataFormat)
    (access : DataAccess) (description : PyValue)
    (default_value : Option PyValue) (fget fset : Option String) : DataInfo :=
  { name := name, dtype := dtype, dformat := dformat, access := access,
    description := description, default_value := default_value,
    fget := match fget with
      | some s => if s = "" then "get" ++ name else s
      | Option.none => "get" ++ name,
    fset := match fset with
      | some s => if s = "" then "set" ++ name else s
      | Option.none => "set" ++ name }

/-- Embedding of `DataInfo.toDataInfo`: wrap the raw mapping in a caseless
dictionary, require a resolvable `type`, read `defaultvalue`, `description`,
`r/w type` (defaulting to read-write), `fget` and `fset`, and — when the
resolved type is not the string type and the default is textual — evaluate
the textual default. -/
def DataInfo.toDataInfo (name : String) (rawInfo : List (String × PyValue)) :
    Except NormError DataInfo :=
  let info := CaselessDict.ofList rawInfo
  match cdGet info "type" with
  | Option.none => .error (.invalidConfiguration "type")
  | some dtypeRaw =>
  match to_dtype_dformat dtypeRaw with
  | .error e => .error e
  | .ok (dtype, dformat) =>
  let default_value := cdGet info "defaultvalue"
  let description := (cdGet info "description").getD (.str "")
  match (match cdGet info "r/w type" with
         | Option.none => Except.ok DataAccess.ReadWrite
         | some v => to_daccess v) with
  | .error e => .error e
  | .ok daccess =>
  let fget := match cdGet info "fget" with
    | some (.str s) => some s
    | _ => Option.none
  let fset := match cdGet info "fset" with
    | some (.str s) => some s
    | _ => Option.none
  match default_value with
  | some dv =>
    if dtype ≠ DataType.String then
      match dv with
      | .str s =>
        match pyEval s with
        | .error e => .error e
        | .ok v =>
          .ok (DataInfo.init name dtype dformat daccess description (some v)
                fget fset)
      | _ =>
        .ok (DataInfo.init name dtype dformat daccess description (some dv)
              fget fset)
    else
      .ok (DataInfo.init name dtype dformat daccess description (some dv)
            fget fset)
  | Option.none =>
    .ok (DataInfo.init name dtype dformat daccess description Option.none
          fget fset)

/-- Serialized view of one descriptor: the fixed-shape dictionary returned by
`DataInfo.toDict`, with the three enumerations rendered as display
strings. -/
structure DataInfoDict where
  name : String
  type : String
  format : String
  access : String
  description : PyValue
  default_value : Option PyValue
deriving DecidableEq

/-- Embedding of `DataInfo.toDict`. -/
def DataInfo.toDict (d : DataInfo) : DataInfoDict :=
  { name := d.name, type := d.dtype.whatis, format := d.dformat.whatis,
    access := d.access.whatis, description := d.description,
    default_value := d.default_value }

/-- Controller base classes a loaded class can derive from (the `controller`
module's `Controller`, `MotorController`, `CounterTimerController` and
`PseudoMotorController`); `other` stands for any unregistered base. -/
inductive CtrlBase where
  | Controller
  | MotorController
  | CounterTimerController
  | PseudoMotorController
  | other (n : String)
deriving DecidableEq

/-- Entry of the static type registry (`TypeData` built from `TYPE_MAP`).
The backing pool class object (`klass` in the source tuple) lives outside
`src/` and is not consulted by the catalogued-class logic, so only its
display name is kept. -/
structure TypeData where
  type : ElementType
  name : String
  family : String
  klass : String
  auto_full_name : String
  ctrl_klass : Option CtrlBase
deriving DecidableEq

/-- The static registry `TYPE_MAP` / `TYPE_MAP_OBJ` (one record per element
type; iteration order of the source dictionary is arbitrary and no property
depends on it). -/
def TYPE_MAP_OBJ : List TypeData :=
  [{ type := .Ctrl, name := "Controller", family := "Controller",
     klass := "CTRL_TYPE_MAP", auto_full_name := "controller/{klass}/{name}",
     ctrl_klass := some .Controller },
   { type := .Instrument, name := "Instrument", family := "Instrument",
     klass := "PoolInstrument", auto_full_name := "{full_name}",
     ctrl_klass := Option.none },
   { type := .Motor, name := "Motor", family := "Motor",
     klass := "PoolMotor", auto_full_name := "motor/{ctrl_name}/{axis}",
     ctrl_klass := some .MotorController },
   { type := .CTExpChannel, name := "CTExpChannel", family := "ExpChannel",
     klass := "PoolCounterTimer", auto_full_name := "expchan/{ctrl_name}/{axis}",
     ctrl_klass := some .CounterTimerController },
   { type := .PseudoMotor, name := "PseudoMotor", family := "Motor",
     klass := "PoolPseudoMotor", auto_full_name := "pm/{ctrl_name}/{axis}",
     ctrl_klass := some .PseudoMotorController },
   { type := .MotorGroup, name := "MotorGroup", family := "MotorGroup",
     klass := "PoolMotorGroup", auto_full_name := "mg/{pool_name}/{name}",
     ctrl_klass := Option.none },
   { type := .MeasurementGroup, name := "MeasurementGroup",
     family := "MeasurementGroup", klass := "PoolMeasurementGroup",
     auto_full_name := "mntgrp/{pool_name}/{name}",
     ctrl_klass := Option.none }]

/-- Modelled from the spec: `TYPE_ELEMENTS` (sardanadefs, not under `src/`)
— the element-type tags denoting concrete controllable-device categories
(spec 4.3 step 6); of the registry's tags these are the motor, the
counter/timer channel and the pseudo motor. -/
def TYPE_ELEMENTS : List ElementType :=
  [.Motor, .CTExpChannel, .PseudoMotor]

/-- Raw declared-schema mapping of a class member (`class_prop`,
`ctrl_properties`, ...): names paired with raw configuration mappings. -/
abbrev RawEntries := List (String × List (String × PyValue))

/-- A loaded class object as seen by the cataloguing routine: its name, the
set of controller base classes it derives from, its declared members
(`Option.none` models a missing attribute, whose access raises), and the
shape of its constructor signature. -/
structure RawClass where
  name : String
  bases : List CtrlBase
  ctrl_features : Option (List String)
  class_prop : Option RawEntries
  ctrl_properties : Option RawEntries
  ctrl_attributes : Option RawEntries
  ctrl_extra_attributes : Option RawEntries
  axis_attributes : Option RawEntries
  motor_roles : Option (List String)
  pseudo_motor_roles : Option (List String)
  init_varargs : Bool
  init_keywords : Bool
  doc : Option String
  gender : String
  model : String
  organization : String
deriving DecidableEq

/-- Python `issubclass` against a controller base class, on the modelled
ancestor set. -/
def issubclass (klass : RawClass) (base : CtrlBase) : Bool :=
  base ∈ klass.bases

/-- Embedding of `ControllerClass.__build_types`: walk the registry, skip
tags that are not concrete element types, and collect every tag whose
required base class the class derives from.  (Every registry entry whose tag
is an element type carries a base class, so the guard against an absent one
is never taken.) -/
def buildTypes (klass : RawClass) : List ElementType :=
  TYPE_MAP_OBJ.filterMap (fun td =>
    if td.type ∈ TYPE_ELEMENTS then
      match td.ctrl_klass with
      | some base => if issubclass klass base then some td.type else Option.none
      | Option.none => Option.none
    else Option.none)

/-- Identity of the owning module record (`ControllerLib`): the module name
and the file name, as resolved by the loader. -/
structure ControllerLibInfo where
  name : String
  f_name : String
deriving DecidableEq

/-- Cataloguing failures: a missing declared member (Python
`AttributeError`) or a descriptor-normalization failure propagating out of
`ControllerClass.__init__`. -/
inductive CatalogError where
  | attributeError (member : String)
  | configError (e : NormError)
deriving DecidableEq

/-- Values of the serialized class dictionary (`ControllerClass.toDict`). -/
inductive DictValue where
  | str (s : String)
  | num (n : Nat)
  | strs (l : List String)
  | dicts (d : List (String × DataInfoDict))
deriving DecidableEq

/-- One loop of `ControllerClass.__init__` filling a caseless descriptor
collection: each raw entry is normalized and inserted under its declared
name; a normalization failure propagates. -/
def normalizeInto (m : List (String × DataInfo)) :
    RawEntries → Except CatalogError (List (String × DataInfo))
  | [] => .ok m
  | (k, v) :: rest =>
    match DataInfo.toDataInfo k v with
    | .error e => .error (.configError e)
    | .ok d => normalizeInto (cdSet m k d) rest

/-- The catalogued-class record (`ControllerClass`). -/
structure ControllerClass where
  klass : RawClass
  name : String
  lib : ControllerLibInfo
  api_version : Nat
  ctrl_features : List String
  ctrl_properties : List (String × DataInfo)
  ctrl_attributes : List (String × DataInfo)
  axis_attributes : List (String × DataInfo)
  types : List ElementType
  motor_roles : Option (List String)
  pseudo_motor_roles : Option (List String)
  dict_extra : List (String × DictValue)
deriving DecidableEq

/-- Embedding of `ControllerClass.__init__`: resolve the class name, read
the feature list, build the three descriptor collections (legacy mapping
first, current mapping second, so the current one wins on caseless key
collision), compute the satisfied element types, read the two role lists
when the pseudo-motor tag is satisfied, and derive the API version from the
constructor signature.  Member accesses and normalizations fail in source
order. -/
def ControllerClass.make (lib : ControllerLibInfo) (klass : RawClass)
    (name : Option String) : Except CatalogError ControllerClass :=
  let cname := match name with
    | some s => if s = "" then klass.name else s
    | Option.none => klass.name
  match klass.ctrl_features with
  | Option.none => .error (.attributeError "ctrl_features")
  | some feats =>
  match klass.class_prop with
  | Option.none => .error (.attributeError "class_prop")
  | some cp =>
  match normalizeInto [] cp with
  | .error e => .error e
  | .ok props₁ =>
  match klass.ctrl_properties with
  | Option.none => .error (.attributeError "ctrl_properties")
  | some cps =>
  match normalizeInto props₁ cps with
  | .error e => .error e
  | .ok props =>
  match klass.ctrl_attributes with
  | Option.none => .error (.attributeError "ctrl_attributes")
  | some cas =>
  match normalizeInto [] cas with
  | .error e => .error e
  | .ok ctrlAttrs =>
  match klass.ctrl_extra_attributes with
  | Option.none => .error (.attributeError "ctrl_extra_attributes")
  | some cea =>
  match normalizeInto [] cea with
  | .error e => .error e
  | .ok axisAttrs₁ =>
  match klass.axis_attributes with
  | Option.none => .error (.attributeError "axis_attributes")
  | some aas =>
  match normalizeInto axisAttrs₁ aas with
  | .error e => .error e
  | .ok axisAttrs =>
  let types := buildTypes klass
  let api := if klass.init_varargs && klass.init_keywords then 1 else 0
  if ElementType.PseudoMotor ∈ types then
    match klass.motor_roles with
    | Option.none => .error (.attributeError "motor_roles")
    | some mr =>
    match klass.pseudo_motor_roles with
    | Option.none => .error (.attributeError "pseudo_motor_roles")
    | some pmr =>
    .ok { klass := klass, name := cname, lib := lib, api_version := api,
          ctrl_features := feats, ctrl_properties := props,
          ctrl_attributes := ctrlAttrs, axis_attributes := axisAttrs,
          types := types, motor_roles := some mr,
          pseudo_motor_roles := some pmr,
          dict_extra := [("motor_roles", DictValue.strs mr),
                         ("pseudo_motor_roles", DictValue.strs pmr)] }
  else
    .ok { klass := klass, name := cname, lib := lib, api_version := api,
          ctrl_features := feats, ctrl_properties := props,
          ctrl_attributes := ctrlAttrs, axis_attributes := axisAttrs,
          types := types, motor_roles := Option.none,
          pseudo_motor_roles := Option.none, dict_extra := [] }

/-- The undocumented-class placeholder (`ControllerClass.NoDoc`). -/
def ControllerClass.NoDoc : String := "<Undocumented controller>"

/-- Embedding of `ControllerClass.getName`. -/
def ControllerClass.getName (c : ControllerClass) : String := c.name

/-- Embedding of `ControllerClass.getModuleName` (delegating to the owning
module record). -/
def ControllerClass.getModuleName (c : ControllerClass) : String := c.lib.name

/-- Embedding of `ControllerClass.getFullName`: module name, a dot, class
name. -/
def ControllerClass.getFullName (c : ControllerClass) : String :=
  c.getModuleName ++ "." ++ c.getName

/-- Embedding of `ControllerClass.getDescription`: the class docstring, or
the placeholder when it is missing or empty (Python `or`). -/
def ControllerClass.getDescription (c : ControllerClass) : String :=
  match c.klass.doc with
  | some s => if s = "" then ControllerClass.NoDoc else s
  | Option.none => ControllerClass.NoDoc

/-- Projection of a descriptor collection for serialization: each
descriptor's dictionary view keyed by its declared name (the two loops in
`ControllerClass.toDict` building `ctrl_props`, `ctrl_attrs` and
`axis_attrs`). -/
def dictValuesByName (m : List (String × DataInfo)) :
    List (String × DataInfoDict) :=
  m.foldl (fun acc kv => dSet acc kv.2.name kv.2.toDict) []

/-- Python `dict.update`: every binding of `extra` inserted into `base`. -/
def dUpdate (base extra : List (String × DictValue)) :
    List (String × DictValue) :=
  extra.foldl (fun acc kv => dSet acc kv.1 kv.2) base

/-- Embedding of `ControllerClass.toDict`: the fixed keys of the class
record, the rendered type tags, the three serialized descriptor
collections, and finally `dict.update` with the extra role entries. -/
def ControllerClass.toDict (c : ControllerClass) : List (String × DictValue) :=
  dUpdate
    [("name", .str c.getName),
     ("full_name", .str (c.getName ++ "." ++ c.getModuleName)),
     ("id", .num 0),
     ("module", .str c.getModuleName),
     ("filename", .str c.lib.f_name),
     ("description", .str c.getDescription),
     ("gender", .str c.klass.gender),
     ("model", .str c.klass.model),
     ("organization", .str c.klass.organization),
     ("api_version", .num c.api_version),
     ("types", .strs (c.types.map ElementType.whatis)),
     ("ctrl_properties", .dicts (dictValuesByName c.ctrl_properties)),
     ("ctrl_attributes", .dicts (dictValuesByName c.ctrl_attributes)),
     ("axis_attributes", .dicts (dictValuesByName c.axis_attributes)),
     ("ctrl_features", .strs c.ctrl_features),
     ("type", .str "ControllerClass")]
    c.dict_extra

/-- The module record: the module identity, the catalogued classes it owns,
and the per-class cataloguing errors recorded against it. -/
structure ModuleRecord where
  lib : ControllerLibInfo
  controllers : List ControllerClass
  errors : List (String × CatalogError)
deriving DecidableEq

/-- Modelled from the spec: the per-class capture loop of the module loader
(spec 4.3 and 7; the loop itself lives outside `src/`) — every class of the
module is catalogued in turn; a per-class failure is appended to the module
record's error list instead of propagating, and cataloguing continues with
the remaining classes. -/
def catalogModule (lib : ControllerLibInfo) (klasses : List RawClass) :
    ModuleRecord :=
  klasses.foldl (fun r k =>
    match ControllerClass.make lib k Option.none with
    | .ok c => { r with controllers := r.controllers ++ [c] }
    | .error e => { r with errors := r.errors ++ [(k.name, e)] })
    { lib := lib, controllers := [], errors := [] }

/-! Helper lemmas about the dictionary models. -/

theorem find?_filter_imp {α : Type} (p q : α → Bool)
    (h : ∀ a, p a = true → q a = true) :
    ∀ l : List α, (l.filter q).find? p = l.find? p := by
  intro l
  induction l with
  | nil => rfl
  | cons a t ih =>
    by_cases hq : q a = true
    · rw [List.filter_cons_of_pos hq]
      by_cases hp : p a = true
      · rw [List.find?_cons_of_pos _ hp, List.find?_cons_of_pos _ hp]
      · rw [List.find?_cons_of_neg _ (by simpa using hp),
            List.find?_cons_of_neg _ (by simpa using hp), ih]
    · have hp : ¬ p a = true := fun hpa => hq (h a hpa)
      rw [List.filter_cons_of_neg hq, ih,
          List.find?_cons_of_neg _ (by simpa using hp)]

theorem find?_set {α : Type} (m : List (String × α)) (k key : String) (v : α) :
    ((m.filter (fun kv => !(kv.1 == k)) ++ [(k, v)]).find?
        (fun kv => kv.1 == key)) =
      if k = key then some (k, v) else m.find? (fun kv => kv.1 == key) := by
  rw [List.find?_append]
  by_cases hk : k = key
  · subst hk
    have h1 : (m.filter (fun kv => !(kv.1 == k))).find?
        (fun kv => kv.1 == k) = Option.none := by
      rw [List.find?_eq_none]
      intro x hx
      have hxf := List.of_mem_filter hx
      simp only [Bool.not_eq_true', beq_eq_false_iff_ne] at hxf
      simp [hxf]
    simp [h1, List.find?]
  · have hbeq : (k == key) = false := by simpa using hk
    have h2 : (List.find? (fun kv => kv.1 == key) [(k, v)]) = Option.none := by
      simp [List.find?, hbeq]
    have h3 := find?_filter_imp (α := String × α) (fun kv => kv.1 == key)
      (fun kv => !(kv.1 == k)) ?side m
    · rw [h2, h3]
      simp [hk]
    case side =>
      intro a ha
      simp only [beq_iff_eq] at ha
      simp only [Bool.not_eq_true', beq_eq_false_iff_ne]
      rw [ha]
      exact Ne.symm hk

theorem dget_dSet {α : Type} (m : List (String × α)) (k key : String) (v : α) :
    dget (dSet m k v) key = if k = key then some v else dget m key := by
  unfold dget dSet
  rw [find?_set]
  split <;> simp

theorem cdGet_cdSet {α : Type} (m : List (String × α)) (k key : String)
    (v : α) :
    cdGet (cdSet m k v) key =
      if strLower k = strLower key then some v else cdGet m key := by
  unfold cdGet cdSet
  rw [find?_set]
  split <;> simp

theorem dget_dUpdate_of_absent (base : List (String × DictValue)) :
    ∀ extra, (∀ kv ∈ extra, kv.1 ≠ key) →
      dget (dUpdate base extra) key = dget base key := by
  intro extra
  induction extra generalizing base with
  | nil => intro _; rfl
  | cons a t ih =>
    intro h
    have ha : a.1 ≠ key := h a (by simp)
    unfold dUpdate at *
    simp only [List.foldl_cons]
    rw [ih (dSet base a.1 a.2) (fun kv hkv => h kv (by simp [hkv])),
        dget_dSet]
    simp [ha]

theorem cdGet_build_of_absent (key : String) :
    ∀ (raw : List (String × PyValue)) (m : List (String × PyValue)),
      (∀ kv ∈ raw, strLower kv.1 ≠ strLower key) →
      cdGet (raw.foldl (fun m kv => cdSet m kv.1 kv.2) m) key = cdGet m key := by
  intro raw
  induction raw with
  | nil => intro m _; rfl
  | cons a t ih =>
    intro m h
    simp only [List.foldl_cons]
    rw [ih (cdSet m a.1 a.2) (fun kv hkv => h kv (by simp [hkv])),
        cdGet_cdSet]
    simp [h a (by simp)]

theorem cdGet_ofList_of_absent (key : String) (raw : List (String × PyValue))
    (h : ∀ kv ∈ raw, strLower kv.1 ≠ strLower key) :
    cdGet (CaselessDict.ofList raw) key = Option.none := by
  unfold CaselessDict.ofList
  rw [cdGet_build_of_absent key raw [] h]
  rfl

theorem ofList_eq_of_lower_eq :
    ∀ (raw₁ raw₂ : List (String × PyValue)),
      raw₁.map (fun kv => (strLower kv.1, kv.2)) =
        raw₂.map (fun kv => (strLower kv.1, kv.2)) →
      CaselessDict.ofList raw₁ = CaselessDict.ofList raw₂ := by
  have main : ∀ (raw₁ raw₂ : List (String × PyValue))
      (m : List (String × PyValue)),
      raw₁.map (fun kv => (strLower kv.1, kv.2)) =
        raw₂.map (fun kv => (strLower kv.1, kv.2)) →
      raw₁.foldl (fun m kv => cdSet m kv.1 kv.2) m =
        raw₂.foldl (fun m kv => cdSet m kv.1 kv.2) m := by
    intro raw₁
    induction raw₁ with
    | nil =>
      intro raw₂ m h
      cases raw₂ with
      | nil => rfl
      | cons b t => simp at h
    | cons a t ih =>
      intro raw₂ m h
      cases raw₂ with
      | nil => simp at h
      | cons b t₂ =>
        simp only [List.map_cons, List.cons.injEq, Prod.mk.injEq] at h
        obtain ⟨⟨hk, hv⟩, ht⟩ := h
        simp only [List.foldl_cons]
        have hset : cdSet m a.1 a.2 = cdSet m b.1 b.2 := by
          unfold cdSet
          rw [hk, hv]
        rw [hset]
        exact ih t₂ (cdSet m b.1 b.2) ht
  intro raw₁ raw₂ h
  exact main raw₁ raw₂ [] h

/-- The binding a caseless merge ends up with for a key: the last entry of
the raw schema mapping whose name matches the key case-insensitively. -/
def caselessLast (entries : RawEntries) (key : String) :
    Option (String × List (String × PyValue)) :=
  entries.reverse.find? (fun kv => strLower kv.1 == strLower key)

theorem caselessLast_nil (key : String) :
    caselessLast [] key = Option.none := rfl

theorem caselessLast_cons (k : String) (v : List (String × PyValue))
    (t : RawEntries) (key : String) :
    caselessLast ((k, v) :: t) key =
      match caselessLast t key with
      | some x => some x
      | Option.none =>
        if strLower k = strLower key then some (k, v) else Option.none := by
  unfold caselessLast
  rw [List.reverse_cons, List.find?_append]
  cases h : (t.reverse.find? (fun kv => strLower kv.1 == strLower key)) with
  | some x => simp [Option.or]
  | none =>
    simp only [Option.or]
    by_cases hk : strLower k = strLower key
    · simp [List.find?, hk]
    · have : (strLower k == strLower key) = false := by simpa using hk
      simp [List.find?, this, hk]

theorem normalizeInto_lookup :
    ∀ (entries : RawEntries) (m m' : List (String × DataInfo)),
      normalizeInto m entries = .ok m' → ∀ key,
      (caselessLast entries key = Option.none → cdGet m' key = cdGet m key) ∧
      (∀ k₀ v₀, caselessLast entries key = some (k₀, v₀) →
        ∃ d, DataInfo.toDataInfo k₀ v₀ = .ok d ∧ cdGet m' key = some d) := by
  intro entries
  induction entries with
  | nil =>
    intro m m' h key
    unfold normalizeInto at h
    cases h
    exact ⟨fun _ => rfl, fun k₀ v₀ hk => by simp [caselessLast_nil] at hk⟩
  | cons a t ih =>
    intro m m' h key
    obtain ⟨k, v⟩ := a
    unfold normalizeInto at h
    cases hnorm : DataInfo.toDataInfo k v with
    | error e => rw [hnorm] at h; cases h
    | ok d =>
      rw [hnorm] at h
      have iht := ih (cdSet m k d) m' h key
      constructor
      · intro habs
        rw [caselessLast_cons] at habs
        cases htail : caselessLast t key with
        | some x => rw [htail] at habs; simp at habs
        | none =>
          rw [htail] at habs
          simp only at habs
          by_cases hk : strLower k = strLower key
          · rw [if_pos hk] at habs; cases habs
          · rw [iht.1 htail, cdGet_cdSet, if_neg hk]
      · intro k₀ v₀ hsome
        rw [caselessLast_cons] at hsome
        cases htail : caselessLast t key with
        | some x =>
          rw [htail] at hsome
          simp only at hsome
          cases hsome
          exact iht.2 k₀ v₀ htail
        | none =>
          rw [htail] at hsome
          simp only at hsome
          by_cases hk : strLower k = strLower key
          · rw [if_pos hk] at hsome
            cases hsome
            refine ⟨d, hnorm, ?_⟩
            rw [iht.1 htail, cdGet_cdSet, if_pos hk]
          · rw [if_neg hk] at hsome; cases hsome

theorem ControllerClass.make_inv {lib : ControllerLibInfo} {klass : RawClass}
    {nm : Option String} {c : ControllerClass}
    (h : ControllerClass.make lib klass nm = .ok c) :
    c.klass = klass ∧ c.lib = lib ∧
    c.name = (match nm with
              | some s => if s = "" then klass.name else s
              | Option.none => klass.name) ∧
    c.types = buildTypes klass ∧
    c.api_version =
      (if klass.init_varargs && klass.init_keywords then 1 else 0) ∧
    (∃ cp cps props₁,
      klass.class_prop = some cp ∧ klass.ctrl_properties = some cps ∧
      normalizeInto [] cp = .ok props₁ ∧
      normalizeInto props₁ cps = .ok c.ctrl_properties) ∧
    (ElementType.PseudoMotor ∈ buildTypes klass →
      ∃ mr pmr, klass.motor_roles = some mr ∧
        klass.pseudo_motor_roles = some pmr ∧
        c.motor_roles = some mr ∧ c.pseudo_motor_roles = some pmr ∧
        c.dict_extra = [("motor_roles", DictValue.strs mr),
                        ("pseudo_motor_roles", DictValue.strs pmr)]) ∧
    (ElementType.PseudoMotor ∉ buildTypes klass →
      c.dict_extra = [] ∧ c.motor_roles = Option.none ∧
      c.pseudo_motor_roles = Option.none) := by
  unfold ControllerClass.make at h
  simp only at h
  repeat' split at h
  all_goals cases h
  all_goals
    refine ⟨rfl, rfl, by simp_all, rfl, by split <;> simp_all,
            ⟨_, _, _, by assumption, by assumption, by assumption,
             by assumption⟩, ?_, ?_⟩
  all_goals first
    | (intro hx
       exact ⟨_, _, by assumption, by assumption, rfl, rfl, rfl⟩)
    | (intro hx
       exact absurd (by assumption) hx)
    | (intro hx
       exact absurd hx (by assumption))
    | (intro hx
       exact ⟨rfl, rfl, rfl⟩)

theorem buildTypes_motor (klass : RawClass)
    (h : CtrlBase.MotorController ∈ klass.bases) :
    ElementType.Motor ∈ buildTypes klass := by
  simp [buildTypes, TYPE_MAP_OBJ, TYPE_ELEMENTS, issubclass,
        List.filterMap_cons]
  rw [if_pos h]
  simp

theorem buildTypes_empty (klass : RawClass)
    (h : ∀ td ∈ TYPE_MAP_OBJ, ∀ b, td.ctrl_klass = some b →
      ¬ (b ∈ klass.bases)) :
    buildTypes klass = [] := by
  simp [TYPE_MAP_OBJ] at h
  obtain ⟨-, h1, h2, h3⟩ := h
  simp [buildTypes, TYPE_MAP_OBJ, TYPE_ELEMENTS, issubclass,
        List.filterMap_cons]
  rw [if_neg h1, if_neg h2, if_neg h3]

theorem catalogModule_spec (lib : ControllerLibInfo) (ks : List RawClass) :
    catalogModule lib ks =
      { lib := lib,
        controllers := ks.filterMap
          (fun k => (ControllerClass.make lib k Option.none).toOption),
        errors := ks.filterMap (fun k =>
          match ControllerClass.make lib k Option.none with
          | .error e => some (k.name, e)
          | .ok _ => Option.none) } := by
  have main : ∀ (ks : List RawClass) (r : ModuleRecord),
      (ks.foldl (fun r k =>
        match ControllerClass.make lib k Option.none with
        | .ok c => { r with controllers := r.controllers ++ [c] }
        | .error e => { r with errors := r.errors ++ [(k.name, e)] }) r) =
      { lib := r.lib,
        controllers := r.controllers ++ ks.filterMap
          (fun k => (ControllerClass.make lib k Option.none).toOption),
        errors := r.errors ++ ks.filterMap (fun k =>
          match ControllerClass.make lib k Option.none with
          | .error e => some (k.name, e)
          | .ok _ => Option.none) } := by
    intro ks
    induction ks with
    | nil => intro r; simp
    | cons a t ih =>
      intro r
      simp only [List.foldl_cons]
      cases hmk : ControllerClass.make lib a Option.none with
      | ok c =>
        rw [ih]
        simp [hmk, Except.toOption, List.filterMap_cons]
      | error e =>
        rw [ih]
        simp [hmk, Except.toOption, List.filterMap_cons]
  unfold catalogModule
  rw [main]
  simp

theorem takeWhile_append_all {α : Type} (p : α → Bool) :
    ∀ (l : List α) (c : α) (r : List α), (∀ a ∈ l, p a = true) →
      p c = false → ((l ++ c :: r).takeWhile p) = l := by
  intro l
  induction l with
  | nil =>
    intro c r _ hc
    simp [List.takeWhile_cons, hc]
  | cons a t ih =>
    intro c r h hc
    have ha : p a = true := h a (by simp)
    simp [List.takeWhile_cons, ha,
          ih c r (fun x hx => h x (by simp [hx])) hc]

theorem dotSplit_eq {x y : List Char} (hx : ('.' : Char) ∉ x)
    (hy : ('.' : Char) ∉ y) (h : x ++ '.' :: y = y ++ '.' :: x) : x = y := by
  have px : ∀ a ∈ x, (a != '.') = true := by
    intro a ha
    simp only [bne_iff_ne, ne_eq]
    intro hh
    exact hx (hh ▸ ha)
  have py : ∀ a ∈ y, (a != '.') = true := by
    intro a ha
    simp only [bne_iff_ne, ne_eq]
    intro hh
    exact hy (hh ▸ ha)
  have h1 := takeWhile_append_all (fun a => a != '.') x '.' y px (by simp)
  have h2 := takeWhile_append_all (fun a => a != '.') y '.' x py (by simp)
  rw [h] at h1
  rw [h2] at h1
  exact h1.symm

/-- Absence of a dot in a string (used to separate the two full-name
renderings). -/
def noDot (s : String) : Prop := ('.' : Char) ∉ s.data

theorem string_dot_eq {n m : String} (hn : noDot n) (hm : noDot m)
    (h : n ++ "." ++ m = m ++ "." ++ n) : n = m := by
  apply String.ext
  have hd := congrArg String.data h
  simp only [String.data_append] at hd
  simp only [List.append_assoc, List.singleton_append] at hd
  exact dotSplit_eq hn hm hd

/-! Claim theorems. -/

/-- C2: for every raw configuration mapping with no `type` key under
case-insensitive lookup, `DataInfo.toDataInfo` fails with the
invalid-configuration error. -/
theorem toDataInfo_missing_type (name : String)
    (raw : List (String × PyValue))
    (h : ∀ kv ∈ raw, strLower kv.1 ≠ "type") :
    DataInfo.toDataInfo name raw =
      .error (NormError.invalidConfiguration "type") := by
  have e : strLower "type" = "type" := by decide
  have habs : cdGet (CaselessDict.ofList raw) "type" = Option.none := by
    apply cdGet_ofList_of_absent
    intro kv hkv
    rw [e]
    exact h kv hkv
  simp only [DataInfo.toDataInfo]
  rw [habs]

/-- Witness for C2: the empty raw mapping has no `type` key and is refused
with the invalid-configuration error. -/
theorem toDataInfo_missing_type_witness :
    (∀ kv ∈ ([] : List (String × PyValue)), strLower kv.1 ≠ "type") ∧
    DataInfo.toDataInfo "x" [] =
      .error (NormError.invalidConfiguration "type") :=
  ⟨by simp, toDataInfo_missing_type "x" [] (by simp)⟩

/-- C6: two raw configuration mappings whose keys agree up to letter case
(and whose values agree) normalize to identical results — key lookup is
case-insensitive. -/
theorem toDataInfo_caseless (name : String)
    (raw₁ raw₂ : List (String × PyValue))
    (h : raw₁.map (fun kv => (strLower kv.1, kv.2)) =
         raw₂.map (fun kv => (strLower kv.1, kv.2))) :
    DataInfo.toDataInfo name raw₁ = DataInfo.toDataInfo name raw₂ := by
  simp only [DataInfo.toDataInfo]
  rw [ofList_eq_of_lower_eq raw₁ raw₂ h]

/-- Witness for C6: `Type` and `TYPE` mappings normalize identically. -/
theorem toDataInfo_caseless_witness :
    ([("Type", PyValue.str "int")].map (fun kv => (strLower kv.1, kv.2)) =
     [("TYPE", PyValue.str "int")].map (fun kv => (strLower kv.1, kv.2))) ∧
    DataInfo.toDataInfo "p" [("Type", PyValue.str "int")] =
      DataInfo.toDataInfo "p" [("TYPE", PyValue.str "int")] :=
  ⟨by decide,
   toDataInfo_caseless "p" [("Type", PyValue.str "int")]
     [("TYPE", PyValue.str "int")] (by decide)⟩

/-- C7: mapping a descriptor's `type`, `format` and `access` display strings
from its `toDict` output back through the registries' reverse lookups
reproduces the descriptor's enumeration values. -/
theorem toDict_enum_roundtrip (d : DataInfo) :
    List.lookup (strLower d.toDict.type) DTYPE_MAP = some d.dtype ∧
    List.lookup (strLower d.toDict.format) DFORMAT_MAP = some d.dformat ∧
    List.lookup (strLower d.toDict.access) DACCESS_MAP = some d.access := by
  obtain ⟨n, dt, df, da, desc, dv, g, st⟩ := d
  simp only [DataInfo.toDict]
  refine ⟨?_, ?_, ?_⟩
  · cases dt <;> decide
  · cases df <;> decide
  · cases da <;> decide

/-- C1: when normalization succeeds and the raw mapping carries a textual
`defaultvalue`, a string-typed descriptor keeps the text unevaluated while
any other descriptor stores the evaluated literal. -/
theorem toDataInfo_default_value (name s : String)
    (raw : List (String × PyValue)) (d : DataInfo)
    (hok : DataInfo.toDataInfo name raw = .ok d)
    (hdv : cdGet (CaselessDict.ofList raw) "defaultvalue" =
      some (PyValue.str s)) :
    (d.dtype = DataType.String → d.default_value = some (PyValue.str s)) ∧
    (d.dtype ≠ DataType.String →
      ∃ v, pyEval s = .ok v ∧ d.default_value = some v) := by
  simp only [DataInfo.toDataInfo] at hok
  rw [hdv] at hok
  simp only [] at hok
  repeat' split at hok
  all_goals cases hok
  all_goals first
    | (refine ⟨fun hty => absurd hty (by assumption),
               fun _ => ⟨_, by assumption, by simp [DataInfo.init]⟩⟩)
    | (refine ⟨fun _ => by simp [DataInfo.init],
               fun hne => absurd (not_not.mp (by assumption)) hne⟩)

/-- Witness for C1: a numeric-typed descriptor declared with
`defaultvalue: "5"` stores the integer `5` (and the spec's string-typed
reading holds vacuously at this instance). -/
theorem toDataInfo_default_value_witness :
    (DataInfo.toDataInfo "p"
        [("type", PyValue.str "int"), ("defaultvalue", PyValue.str "5")] =
      .ok { name := "p", dtype := DataType.Integer,
            dformat := DataFormat.Scalar, access := DataAccess.ReadWrite,
            description := PyValue.str "",
            default_value := some (PyValue.int 5), fget := "getp",
            fset := "setp" }) ∧
    (cdGet (CaselessDict.ofList
        [("type", PyValue.str "int"), ("defaultvalue", PyValue.str "5")])
        "defaultvalue" = some (PyValue.str "5")) ∧
    (({ name := "p", dtype := DataType.Integer, dformat := DataFormat.Scalar,
        access := DataAccess.ReadWrite, description := PyValue.str "",
        default_value := some (PyValue.int 5), fget := "getp",
        fset := "setp" } : DataInfo).dtype = DataType.String →
      ({ name := "p", dtype := DataType.Integer,
         dformat := DataFormat.Scalar, access := DataAccess.ReadWrite,
         description := PyValue.str "",
         default_value := some (PyValue.int 5), fget := "getp",
         fset := "setp" } : DataInfo).default_value =
        some (PyValue.str "5")) ∧
    (({ name := "p", dtype := DataType.Integer, dformat := DataFormat.Scalar,
        access := DataAccess.ReadWrite, description := PyValue.str "",
        default_value := some (PyValue.int 5), fget := "getp",
        fset := "setp" } : DataInfo).dtype ≠ DataType.String →
      ∃ v, pyEval "5" = .ok v ∧
        ({ name := "p", dtype := DataType.Integer,
           dformat := DataFormat.Scalar, access := DataAccess.ReadWrite,
           description := PyValue.str "",
           default_value := some (PyValue.int 5), fget := "getp",
           fset := "setp" } : DataInfo).default_value = some v) :=
  ⟨by decide, by decide,
   (toDataInfo_default_value "p" "5"
     [("type", PyValue.str "int"), ("defaultvalue", PyValue.str "5")]
     { name := "p", dtype := DataType.Integer, dformat := DataFormat.Scalar,
       access := DataAccess.ReadWrite, description := PyValue.str "",
       default_value := some (PyValue.int 5), fget := "getp",
       fset := "setp" } (by decide) (by decide)).1,
   (toDataInfo_default_value "p" "5"
     [("type", PyValue.str "int"), ("defaultvalue", PyValue.str "5")]
     { name := "p", dtype := DataType.Integer, dformat := DataFormat.Scalar,
       access := DataAccess.ReadWrite, description := PyValue.str "",
       default_value := some (PyValue.int 5), fget := "getp",
       fset := "setp" } (by decide) (by decide)).2⟩

/-- Module identity used by the concrete cataloguing runs. -/
def lib0 : ControllerLibInfo := { name := "mymod", f_name := "mymod.py" }

/-- A loaded class deriving from the registered motor-controller base, with
empty declared schemas and a current-API constructor signature. -/
def motorRaw : RawClass :=
  { name := "MyMotorCtrl", bases := [.MotorController, .Controller],
    ctrl_features := some [], class_prop := some [],
    ctrl_properties := some [], ctrl_attributes := some [],
    ctrl_extra_attributes := some [], axis_attributes := some [],
    motor_roles := Option.none, pseudo_motor_roles := Option.none,
    init_varargs := true, init_keywords := true,
    doc := some "My motor controller.", gender := "Motor controller",
    model := "Generic", organization := "CELLS - ALBA" }

/-- The record cataloguing `motorRaw` produces. -/
def motorCC : ControllerClass :=
  { klass := motorRaw, name := "MyMotorCtrl", lib := lib0, api_version := 1,
    ctrl_features := [], ctrl_properties := [], ctrl_attributes := [],
    axis_attributes := [], types := [.Motor], motor_roles := Option.none,
    pseudo_motor_roles := Option.none, dict_extra := [] }

/-- C3: a catalogued class deriving from the registered motor-controller
base satisfies the motor tag; one deriving from none of the registered
bases satisfies no tag at all. -/
theorem catalogued_types (lib : ControllerLibInfo) (klass : RawClass)
    (nm : Option String) (c : ControllerClass)
    (hmake : ControllerClass.make lib klass nm = .ok c) :
    (CtrlBase.MotorController ∈ klass.bases →
      ElementType.Motor ∈ c.types) ∧
    ((∀ td ∈ TYPE_MAP_OBJ, ∀ b, td.ctrl_klass = some b → b ∉ klass.bases) →
      c.types = []) := by
  obtain ⟨-, -, -, htypes, -⟩ := ControllerClass.make_inv hmake
  rw [htypes]
  exact ⟨buildTypes_motor klass, buildTypes_empty klass⟩

/-- Witness for C3: cataloguing `motorRaw` yields the motor tag. -/
theorem catalogued_types_witness :
    (ControllerClass.make lib0 motorRaw Option.none = .ok motorCC) ∧
    (CtrlBase.MotorController ∈ motorRaw.bases →
      ElementType.Motor ∈ motorCC.types) ∧
    ((∀ td ∈ TYPE_MAP_OBJ, ∀ b, td.ctrl_klass = some b →
        b ∉ motorRaw.bases) →
      motorCC.types = []) :=
  ⟨by decide,
   (catalogued_types lib0 motorRaw Option.none motorCC (by decide)).1,
   (catalogued_types lib0 motorRaw Option.none motorCC (by decide)).2⟩

/-- C8: a catalogued class's API version is 0 exactly when its constructor
signature lacks the arbitrary-positional or the arbitrary-keyword
parameter, and 1 exactly when it declares both. -/
theorem catalogued_api_version (lib : ControllerLibInfo) (klass : RawClass)
    (nm : Option String) (c : ControllerClass)
    (hmake : ControllerClass.make lib klass nm = .ok c) :
    (c.api_version = 0 ↔
      ¬(klass.init_varargs = true ∧ klass.init_keywords = true)) ∧
    (c.api_version = 1 ↔
      (klass.init_varargs = true ∧ klass.init_keywords = true)) := by
  obtain ⟨-, -, -, -, hapi, -⟩ := ControllerClass.make_inv hmake
  rw [hapi]
  by_cases hv : klass.init_varargs = true <;>
    by_cases hk : klass.init_keywords = true <;>
      simp [hv, hk]

/-- A loaded class whose constructor signature lacks the extension
parameters (an old-API controller). -/
def oldApiRaw : RawClass :=
  { motorRaw with
    name := "OldMotorCtrl"
    init_varargs := false
    init_keywords := false }

/-- The record cataloguing `oldApiRaw` produces. -/
def oldApiCC : ControllerClass :=
  { motorCC with
    klass := oldApiRaw
    name := "OldMotorCtrl"
    api_version := 0 }

/-- Witness for C8: `oldApiRaw` is catalogued with API version 0. -/
theorem catalogued_api_version_witness :
    (ControllerClass.make lib0 oldApiRaw Option.none = .ok oldApiCC) ∧
    (oldApiCC.api_version = 0 ↔
      ¬(oldApiRaw.init_varargs = true ∧ oldApiRaw.init_keywords = true)) ∧
    (oldApiCC.api_version = 1 ↔
      (oldApiRaw.init_varargs = true ∧ oldApiRaw.init_keywords = true)) :=
  ⟨by decide,
   (catalogued_api_version lib0 oldApiRaw Option.none oldApiCC
     (by decide)).1,
   (catalogued_api_version lib0 oldApiRaw Option.none oldApiCC
     (by decide)).2⟩

/-- C4: the catalogued property collection is the caseless merge of the
legacy `class_prop` mapping and the current `ctrl_properties` mapping, each
entry normalized, with the current mapping winning on caseless key
collision. -/
theorem catalogued_properties_merge (lib : ControllerLibInfo)
    (klass : RawClass) (nm : Option String) (c : ControllerClass)
    (cp cps : RawEntries) (key : String)
    (hmake : ControllerClass.make lib klass nm = .ok c)
    (hcp : klass.class_prop = some cp)
    (hcps : klass.ctrl_properties = some cps) :
    (∀ k₀ v₀, caselessLast cps key = some (k₀, v₀) →
      ∃ d, DataInfo.toDataInfo k₀ v₀ = .ok d ∧
        cdGet c.ctrl_properties key = some d) ∧
    (caselessLast cps key = Option.none →
      ∀ k₀ v₀, caselessLast cp key = some (k₀, v₀) →
      ∃ d, DataInfo.toDataInfo k₀ v₀ = .ok d ∧
        cdGet c.ctrl_properties key = some d) ∧
    (caselessLast cps key = Option.none →
      caselessLast cp key = Option.none →
      cdGet c.ctrl_properties key = Option.none) := by
  obtain ⟨-, -, -, -, -, ⟨cp', cps', props₁, hcp', hcps', hn1, hn2⟩, -⟩ :=
    ControllerClass.make_inv hmake
  rw [hcp] at hcp'
  rw [hcps] at hcps'
  cases hcp'
  cases hcps'
  have l1 := normalizeInto_lookup cp [] props₁ hn1 key
  have l2 := normalizeInto_lookup cps props₁ c.ctrl_properties hn2 key
  refine ⟨?_, ?_, ?_⟩
  · intro k₀ v₀ hsome
    exact l2.2 k₀ v₀ hsome
  · intro hnone k₀ v₀ hsome
    obtain ⟨d, hd, hget⟩ := l1.2 k₀ v₀ hsome
    exact ⟨d, hd, by rw [l2.1 hnone, hget]⟩
  · intro hnone₂ hnone₁
    rw [l2.1 hnone₂, l1.1 hnone₁]
    rfl

/-- A loaded class declaring the same property name in both the legacy and
the current schema mapping, in different letter cases. -/
def propRaw : RawClass :=
  { motorRaw with
    name := "PropCtrl"
    class_prop := some
      [("Port", [("type", PyValue.str "int"),
                 ("defaultvalue", PyValue.str "5")])]
    ctrl_properties := some
      [("PORT", [("type", PyValue.str "str"),
                 ("defaultvalue", PyValue.str "hi")])] }

/-- The descriptor the current mapping's `PORT` entry normalizes to. -/
def portInfo : DataInfo :=
  { name := "PORT", dtype := DataType.String, dformat := DataFormat.Scalar,
    access := DataAccess.ReadWrite, description := PyValue.str "",
    default_value := some (PyValue.str "hi"), fget := "getPORT",
    fset := "setPORT" }

/-- The record cataloguing `propRaw` produces: the current mapping's entry
won the caseless collision. -/
def propCC : ControllerClass :=
  { motorCC with
    klass := propRaw
    name := "PropCtrl"
    ctrl_properties := [("port", portInfo)] }

/-- Witness for C4: for the colliding name `Port`/`PORT` the catalogued
collection holds the normalization of the current mapping's entry. -/
theorem catalogued_properties_merge_witness :
    (ControllerClass.make lib0 propRaw Option.none = .ok propCC) ∧
    (propRaw.class_prop = some
      [("Port", [("type", PyValue.str "int"),
                 ("defaultvalue", PyValue.str "5")])]) ∧
    (∀ k₀ v₀, caselessLast
        [("PORT", [("type", PyValue.str "str"),
                   ("defaultvalue", PyValue.str "hi")])] "port" =
        some (k₀, v₀) →
      ∃ d, DataInfo.toDataInfo k₀ v₀ = .ok d ∧
        cdGet propCC.ctrl_properties "port" = some d) :=
  ⟨by decide, by decide,
   (catalogued_properties_merge lib0 propRaw Option.none propCC
     [("Port", [("type", PyValue.str "int"),
                ("defaultvalue", PyValue.str "5")])]
     [("PORT", [("type", PyValue.str "str"),
                ("defaultvalue", PyValue.str "hi")])]
     "port" (by decide) (by decide) (by decide)).1⟩

/-- C5 (amended): a catalogued class satisfying the pseudo-motor tag
serializes its two declared role lists under the `motor_roles` and
`pseudo_motor_roles` keys; for any other class the two keys are absent.
The values are exactly the declared lists, which the code does not require
to be non-empty. -/
theorem catalogued_pseudo_roles (lib : ControllerLibInfo) (klass : RawClass)
    (nm : Option String) (c : ControllerClass)
    (hmake : ControllerClass.make lib klass nm = .ok c) :
    (ElementType.PseudoMotor ∈ c.types →
      ∃ mr pmr, klass.motor_roles = some mr ∧
        klass.pseudo_motor_roles = some pmr ∧
        dget c.toDict "motor_roles" = some (DictValue.strs mr) ∧
        dget c.toDict "pseudo_motor_roles" = some (DictValue.strs pmr)) ∧
    (ElementType.PseudoMotor ∉ c.types →
      dget c.toDict "motor_roles" = Option.none ∧
      dget c.toDict "pseudo_motor_roles" = Option.none) := by
  obtain ⟨-, -, -, htypes, -, -, hpos, hneg⟩ := ControllerClass.make_inv hmake
  rw [htypes]
  constructor
  · intro hmem
    obtain ⟨mr, pmr, hmr, hpmr, -, -, hdx⟩ := hpos hmem
    refine ⟨mr, pmr, hmr, hpmr, ?_, ?_⟩
    · unfold ControllerClass.toDict
      rw [hdx]
      simp only [dUpdate, List.foldl_cons, List.foldl_nil]
      rw [dget_dSet, if_neg (by decide), dget_dSet, if_pos rfl]
    · unfold ControllerClass.toDict
      rw [hdx]
      simp only [dUpdate, List.foldl_cons, List.foldl_nil]
      rw [dget_dSet, if_pos rfl]
  · intro hmem
    obtain ⟨hdx, -, -⟩ := hneg hmem
    unfold ControllerClass.toDict
    rw [hdx]
    simp only [dUpdate, List.foldl_nil]
    constructor <;> rfl

/-- A loaded class deriving from the pseudo-motor controller base with two
declared motor roles and one pseudo-motor role. -/
def pseudoRaw : RawClass :=
  { motorRaw with
    name := "MyPseudoCtrl"
    bases := [.PseudoMotorController, .Controller]
    motor_roles := some ["m1", "m2"]
    pseudo_motor_roles := some ["pm"] }

/-- The record cataloguing `pseudoRaw` produces. -/
def pseudoCC : ControllerClass :=
  { motorCC with
    klass := pseudoRaw
    name := "MyPseudoCtrl"
    types := [.PseudoMotor]
    motor_roles := some ["m1", "m2"]
    pseudo_motor_roles := some ["pm"]
    dict_extra := [("motor_roles", DictValue.strs ["m1", "m2"]),
                   ("pseudo_motor_roles", DictValue.strs ["pm"])] }

/-- Witness for C5: serializing the catalogued `pseudoRaw` surfaces the two
role lists. -/
theorem catalogued_pseudo_roles_witness :
    (ControllerClass.make lib0 pseudoRaw Option.none = .ok pseudoCC) ∧
    (ElementType.PseudoMotor ∈ pseudoCC.types →
      ∃ mr pmr, pseudoRaw.motor_roles = some mr ∧
        pseudoRaw.pseudo_motor_roles = some pmr ∧
        dget pseudoCC.toDict "motor_roles" = some (DictValue.strs mr) ∧
        dget pseudoCC.toDict "pseudo_motor_roles" =
          some (DictValue.strs pmr)) ∧
    (ElementType.PseudoMotor ∉ pseudoCC.types →
      dget pseudoCC.toDict "motor_roles" = Option.none ∧
      dget pseudoCC.toDict "pseudo_motor_roles" = Option.none) :=
  ⟨by decide,
   (catalogued_pseudo_roles lib0 pseudoRaw Option.none pseudoCC
     (by decide)).1,
   (catalogued_pseudo_roles lib0 pseudoRaw Option.none pseudoCC
     (by decide)).2⟩

/-- A pseudo-motor controller class whose declared role lists are empty. -/
def pseudoEmptyRaw : RawClass :=
  { motorRaw with
    name := "EmptyRolesCtrl"
    bases := [.PseudoMotorController, .Controller]
    motor_roles := some []
    pseudo_motor_roles := some [] }

/-- The record cataloguing `pseudoEmptyRaw` produces. -/
def pseudoEmptyCC : ControllerClass :=
  { motorCC with
    klass := pseudoEmptyRaw
    name := "EmptyRolesCtrl"
    types := [.PseudoMotor]
    motor_roles := some []
    pseudo_motor_roles := some []
    dict_extra := [("motor_roles", DictValue.strs []),
                   ("pseudo_motor_roles", DictValue.strs [])] }

/-- Counterexample for C5 as stated: a catalogued class satisfying the
pseudo-motor tag whose serialized `motor_roles` and `pseudo_motor_roles`
keys hold empty lists, so the keys are present but not non-empty. -/
theorem catalogued_pseudo_roles_counterexample :
    (ControllerClass.make lib0 pseudoEmptyRaw Option.none =
      .ok pseudoEmptyCC) ∧
    ElementType.PseudoMotor ∈ pseudoEmptyCC.types ∧
    dget pseudoEmptyCC.toDict "motor_roles" = some (DictValue.strs []) ∧
    dget pseudoEmptyCC.toDict "pseudo_motor_roles" =
      some (DictValue.strs []) := by decide

/-- C9: a class whose cataloguing fails contributes a record to the owning
module record's error list instead of propagating, and the catalogued
records of the sibling classes are exactly those obtained without the
failing class. -/
theorem catalogModule_captures_failures (lib : ControllerLibInfo)
    (pre post : List RawClass) (bad : RawClass) (e : CatalogError)
    (hbad : ControllerClass.make lib bad Option.none = .error e) :
    ((bad.name, e) ∈ (catalogModule lib (pre ++ bad :: post)).errors) ∧
    ((catalogModule lib (pre ++ bad :: post)).controllers =
      (catalogModule lib (pre ++ post)).controllers) := by
  rw [catalogModule_spec, catalogModule_spec]
  constructor
  · simp [List.filterMap_append, List.filterMap_cons, hbad]
  · simp [List.filterMap_append, List.filterMap_cons, hbad, Except.toOption]

/-- A class declaration missing its feature list, whose cataloguing
fails. -/
def badRaw : RawClass :=
  { motorRaw with
    name := "BrokenCtrl"
    ctrl_features := Option.none }

/-- Witness for C9: between two healthy classes, the broken one is recorded
on the module record while its siblings are catalogued as if it were not
there. -/
theorem catalogModule_captures_failures_witness :
    (ControllerClass.make lib0 badRaw Option.none =
      .error (CatalogError.attributeError "ctrl_features")) ∧
    (("BrokenCtrl", CatalogError.attributeError "ctrl_features") ∈
      (catalogModule lib0 [motorRaw, badRaw, oldApiRaw]).errors) ∧
    ((catalogModule lib0 [motorRaw, badRaw, oldApiRaw]).controllers =
      (catalogModule lib0 [motorRaw, oldApiRaw]).controllers) :=
  ⟨by decide,
   (catalogModule_captures_failures lib0 [motorRaw] [oldApiRaw] badRaw
     (CatalogError.attributeError "ctrl_features") (by decide)).1,
   (catalogModule_captures_failures lib0 [motorRaw] [oldApiRaw] badRaw
     (CatalogError.attributeError "ctrl_features") (by decide)).2⟩

/-- C10 (amended): serialization renders `full_name` as class name, dot,
module name, while `getFullName` renders module name, dot, class name; when
neither component contains a dot and they differ, the two renderings are
different strings.  (With dotted module names the two renderings can
coincide even for distinct components.) -/
theorem full_name_renderings (lib : ControllerLibInfo) (klass : RawClass)
    (nm : Option String) (c : ControllerClass)
    (hmake : ControllerClass.make lib klass nm = .ok c) :
    dget c.toDict "full_name" =
      some (DictValue.str (c.getName ++ "." ++ c.getModuleName)) ∧
    c.getFullName = c.getModuleName ++ "." ++ c.getName ∧
    (noDot c.getName → noDot c.getModuleName →
      c.getName ≠ c.getModuleName →
      c.getName ++ "." ++ c.getModuleName ≠ c.getFullName) := by
  obtain ⟨-, -, -, htypes, -, -, hpos, hneg⟩ := ControllerClass.make_inv hmake
  refine ⟨?_, rfl, ?_⟩
  · by_cases hmem : ElementType.PseudoMotor ∈ buildTypes klass
    · obtain ⟨mr, pmr, -, -, -, -, hdx⟩ := hpos hmem
      unfold ControllerClass.toDict
      rw [hdx]
      simp only [dUpdate, List.foldl_cons, List.foldl_nil]
      rw [dget_dSet, if_neg (by decide), dget_dSet, if_neg (by decide)]
      rfl
    · obtain ⟨hdx, -, -⟩ := hneg hmem
      unfold ControllerClass.toDict
      rw [hdx]
      simp only [dUpdate, List.foldl_nil]
      rfl
  · intro hn hm hne heq
    exact hne (string_dot_eq hn hm (heq.trans rfl))

/-- Witness for C10 (amended): for the catalogued `motorRaw` (dot-free
class and module names) the two renderings are distinct strings. -/
theorem full_name_renderings_witness :
    (ControllerClass.make lib0 motorRaw Option.none = .ok motorCC) ∧
    (dget motorCC.toDict "full_name" =
      some (DictValue.str
        (motorCC.getName ++ "." ++ motorCC.getModuleName))) ∧
    (motorCC.getFullName =
      motorCC.getModuleName ++ "." ++ motorCC.getName) ∧
    (noDot motorCC.getName → noDot motorCC.getModuleName →
      motorCC.getName ≠ motorCC.getModuleName →
      motorCC.getName ++ "." ++ motorCC.getModuleName ≠
        motorCC.getFullName) :=
  ⟨by decide,
   (full_name_renderings lib0 motorRaw Option.none motorCC (by decide)).1,
   (full_name_renderings lib0 motorRaw Option.none motorCC (by decide)).2.1,
   (full_name_renderings lib0 motorRaw Option.none motorCC (by decide)).2.2⟩

/-- A module whose name is the class's name with a dotted suffix. -/
def dottedLib : ControllerLibInfo := { name := "a.a", f_name := "a.py" }

/-- A class named `a` inside the module named `a.a`. -/
def dottedRaw : RawClass := { motorRaw with name := "a" }

/-- The record cataloguing `dottedRaw` in `dottedLib` produces. -/
def dottedCC : ControllerClass :=
  { motorCC with
    klass := dottedRaw
    name := "a"
    lib := dottedLib }

/-- Counterexample for C10 as stated: for the class `a` of module `a.a` the
class name differs from the module name, yet the serialized `full_name` and
`getFullName` render the same string `a.a.a`. -/
theorem full_name_renderings_counterexample :
    (ControllerClass.make dottedLib dottedRaw Option.none = .ok dottedCC) ∧
    dottedCC.getName ≠ dottedCC.getModuleName ∧
    dget dottedCC.toDict "full_name" =
      some (DictValue.str dottedCC.getFullName) := by decide
